import Mathlib

/-!
Shallow embedding of the datasource HTTP-transport provisioning layer
(`pkg/models` datasource cache file): the transport cache (`GetHttpTransport`),
the TLS config builder (`GetTLSConfig`), the numbered custom-header scan
(`getCustomHeaders`), the SigV4 signing middleware (`sigV4Middleware` /
`awsServiceNamespace`) and the secure-JSON decryption cache
(`DecryptedValues` / `DecryptedValue` / `ClearDSDecryptionCache`).

Modelling choices:
* `time.Time` values are integers; `Equal` is integer equality.
* The process-global caches (`ptc`, `dsDecryptionCache`) are an explicit
  state record `St` threaded through the stateful operations.
* Heap identity of a freshly allocated `*dataSourceTransport` is modelled by
  an allocation counter `nextTag` in the state: each build stamps the new
  transport with a fresh `tag`.
* Go panics are a distinct outcome (`BuildOutcome.panic`), separate from an
  error returned by the function (`BuildOutcome.err`).
* The x509/tls standard-library parsers are external collaborators, passed
  in as an `X509Lib` record of functions.
* `SecureJsonData.Decrypt()` is deterministic for a fixed blob, so a blob is
  represented by the string map it decrypts to; the state counts the decrypt
  invocations made by the decryption-cache layer (`decryptCount`).
-/

namespace GrafanaDS

/-- JSON-like values as observed through simplejson's `Get(...).Must*` accessors. -/
inductive JsonVal where
  | null
  | str (s : String)
  | boolean (b : Bool)
  | num (n : Int)
deriving DecidableEq, Repr

/-- simplejson `MustString()`: the string value, or `""` on any other shape. -/
def JsonVal.mustString : JsonVal → String
  | .str s => s
  | _ => ""

/-- simplejson `MustBool(d)`: the boolean value, or the default on any other shape. -/
def JsonVal.mustBool (v : JsonVal) (d : Bool) : Bool :=
  match v with
  | .boolean b => b
  | _ => d

/-- simplejson `MustInt()`: the numeric value, or `0` on any other shape. -/
def JsonVal.mustInt : JsonVal → Int
  | .num n => n
  | _ => 0

/-- A JSON object: finite association list of keys to values. -/
abbrev JsonObj := List (String × JsonVal)

/-- simplejson `Get`: absent keys read as null. -/
def jsonGet (jd : JsonObj) (k : String) : JsonVal :=
  match List.lookup k jd with
  | some v => v
  | none => .null

/-- A Go `map[string]string`, as an association list. -/
abbrev Smap := List (String × String)

/-- Go map assignment `m[k] = v`: overwrites any previous binding of `k`. -/
def assocSet {κ α : Type} [BEq κ] (m : List (κ × α)) (k : κ) (v : α) :
    List (κ × α) :=
  (k, v) :: m.filter (fun p => p.1 != k)

/-- Go map read `m[k]` of a `map[string]string`: `""` when the key is absent. -/
def smapGetD (m : Smap) (k : String) : String :=
  (List.lookup k m).getD ""

/-- The external datasource descriptor (the fields this layer reads). -/
structure DataSource where
  Id : Int
  Name : String
  /-- `ds.Type` (`Type` is a Lean keyword, hence the prime). -/
  Type' : String
  /-- `ds.Updated` (a `time.Time`), as an integer timestamp. -/
  Updated : Int
  /-- `ds.JsonData`, a nullable simplejson object. -/
  JsonData : Option JsonObj
  /-- `ds.SecureJsonData`, represented by the map `Decrypt()` yields. -/
  SecureJsonData : Smap
deriving DecidableEq, Repr

/-- `ds.SecureJsonData.Decrypt()` — the secret store's decrypt capability
(deterministic for a fixed blob). -/
def DataSource.secureDecrypt (ds : DataSource) : Smap :=
  ds.SecureJsonData

/-- `ds.JsonData.Get k` guarded by the source's `ds.JsonData != nil` checks:
a nil `JsonData` reads as null, so every `Must*` accessor yields its default,
exactly what the guarded Go code computes. -/
def DataSource.jsonDataGet (ds : DataSource) (k : String) : JsonVal :=
  match ds.JsonData with
  | some jd => jsonGet jd k
  | none => .null

/-- The process-wide `setting` values this layer consumes. -/
structure Setting where
  DataProxyTimeout : Int
  DataProxyKeepAlive : Int
  DataProxyTLSHandshakeTimeout : Int
  DataProxyExpectContinueTimeout : Int
  DataProxyMaxIdleConns : Int
  DataProxyIdleConnTimeout : Int
  SigV4AuthEnabled : Bool
deriving DecidableEq, Repr

/-- `(ds *DataSource) getTimeout()`: per-resource `timeout` override when
non-zero, else the process-wide default (in seconds). -/
def DataSource.getTimeout (ds : DataSource) (cfg : Setting) : Int :=
  let timeout :=
    match ds.JsonData with
    | some jd => (jsonGet jd "timeout").mustInt
    | none => 0
  if timeout = 0 then cfg.DataProxyTimeout else timeout

/-- `tls.Config.Renegotiation` support levels used by this layer. -/
inductive Renegotiation where
  | RenegotiateNever
  | RenegotiateFreelyAsClient
deriving DecidableEq, Repr

/-- The `tls.Config` fields this layer writes. A certificate (parsed CA entry
or `tls.Certificate`) is opaque, represented by a string. `RootCAs` is the
optional CA pool (`none` = system roots); Go zero values are
`Renegotiation = RenegotiateNever`, empty `Certificates`. -/
structure TLSConfig where
  InsecureSkipVerify : Bool
  ServerName : String
  RootCAs : Option (List String)
  Certificates : List String
  Renegotiation : Renegotiation
deriving DecidableEq, Repr

/-- The external x509/tls standard library:
`parsePEMCerts pem` is the list of certificates `x509.CertPool.AppendCertsFromPEM`
recovers from `pem` (the Go call reports `ok = false` exactly when this list is
empty); `x509KeyPair` is `tls.X509KeyPair`, failing on malformed or mismatched
pairs. -/
structure X509Lib where
  parsePEMCerts : String → List String
  x509KeyPair : String → String → Except String String

/-- `(ds *DataSource) GetTLSConfig()`. Reads the TLS flags from `JsonData`
(nil reads as all-default), then, when client auth or CA pinning is requested,
decrypts the secret blob, assembles the CA pool (failing when the PEM bytes
parse to zero certificates) and the client key pair (failing on
`tls.X509KeyPair` error). -/
def DataSource.GetTLSConfig (ds : DataSource) (lib : X509Lib) :
    Except String TLSConfig :=
  let tlsClientAuth := (ds.jsonDataGet "tlsAuth").mustBool false
  let tlsAuthWithCACert := (ds.jsonDataGet "tlsAuthWithCACert").mustBool false
  let tlsSkipVerify := (ds.jsonDataGet "tlsSkipVerify").mustBool false
  let serverName := (ds.jsonDataGet "serverName").mustString
  let tlsConfig : TLSConfig :=
    { InsecureSkipVerify := tlsSkipVerify
      ServerName := serverName
      RootCAs := none
      Certificates := []
      Renegotiation := .RenegotiateNever }
  if tlsClientAuth || tlsAuthWithCACert then
    let decrypted := ds.secureDecrypt
    let caStep : Except String TLSConfig :=
      if tlsAuthWithCACert && (smapGetD decrypted "tlsCACert").length > 0 then
        let caPool := lib.parsePEMCerts (smapGetD decrypted "tlsCACert")
        if caPool.isEmpty then
          .error "failed to parse TLS CA PEM certificate"
        else
          .ok { tlsConfig with RootCAs := some caPool }
      else
        .ok tlsConfig
    match caStep with
    | .error e => .error e
    | .ok cfg1 =>
      if tlsClientAuth then
        match lib.x509KeyPair (smapGetD decrypted "tlsClientCert")
            (smapGetD decrypted "tlsClientKey") with
        | .error e => .error e
        | .ok cert => .ok { cfg1 with Certificates := [cert] }
      else
        .ok cfg1
  else
    .ok tlsConfig

/-- One iteration layer of the `getCustomHeaders` loop. The Go loop is
unbounded (`for { ... }`) but terminates at the first index whose
`httpHeaderName<i>` entry is absent or empty; the caller passes fuel
`jd.length + 1`, which always reaches such a gap because a `JsonObj` with
`n` entries cannot contain `n+1` distinct header-name keys. -/
def getCustomHeadersLoop (jd : JsonObj) (decrypted : Smap) :
    Nat → Nat → Smap → Smap
  | 0, _, headers => headers
  | fuel + 1, index, headers =>
    let key := (jsonGet jd ("httpHeaderName" ++ toString index)).mustString
    if key = "" then
      headers
    else
      let headers' :=
        match List.lookup ("httpHeaderValue" ++ toString index) decrypted with
        | some val => assocSet headers key val
        | none => headers
      getCustomHeadersLoop jd decrypted fuel (index + 1) headers'

/-- `(ds *DataSource) getCustomHeaders()`: scans `httpHeaderName1`,
`httpHeaderName2`, ... and pairs each name with the decrypted
`httpHeaderValue<i>` when present. -/
def DataSource.getCustomHeaders (ds : DataSource) : Smap :=
  match ds.JsonData with
  | none => []
  | some jd =>
    let decrypted := ds.secureDecrypt
    getCustomHeadersLoop jd decrypted (jd.length + 1) 1 []

/-- Datasource type-tag constants. Modelled from the spec: the constants
`DS_ES`, `DS_ES_OPEN_DISTRO`, `DS_PROMETHEUS` are declared elsewhere in the
repository; the spec recognises exactly Elasticsearch, open-distro
Elasticsearch and Prometheus, with `"elasticsearch"` the Elasticsearch tag. -/
def DS_ES : String := "elasticsearch"

/-- Modelled from the spec: the open-distro Elasticsearch type tag. -/
def DS_ES_OPEN_DISTRO : String := "grafana-es-open-distro-datasource"

/-- Modelled from the spec: the Prometheus type tag. -/
def DS_PROMETHEUS : String := "prometheus"

/-- `awsServiceNamespace(dsType)`: the AWS service namespace for a recognised
type tag. On any other tag the Go function PANICS
(`panic(fmt.Sprintf("Unsupported datasource %q", dsType))`); the panic is the
`.error` branch here, carrying the panic message. -/
def awsServiceNamespace (dsType : String) : Except String String :=
  if dsType = DS_ES ∨ dsType = DS_ES_OPEN_DISTRO then .ok "es"
  else if dsType = DS_PROMETHEUS then .ok "aps"
  else .error ("Unsupported datasource " ++ dsType)

/-- The `sigv4.Config` captured by the signing middleware at construction. -/
structure SigV4Config where
  Service : String
  AccessKey : String
  SecretKey : String
  Region : String
  AssumeRoleARN : String
  AuthType : String
  ExternalID : String
  Profile : String
deriving DecidableEq, Repr

/-- The `*http.Transport` assembled by `GetHttpTransport` (the fields the
source sets; `Proxy: http.ProxyFromEnvironment` is ambient configuration and
carries no per-resource data). -/
structure HttpTransport where
  TLSClientConfig : TLSConfig
  DialTimeout : Int
  DialKeepAlive : Int
  TLSHandshakeTimeout : Int
  ExpectContinueTimeout : Int
  MaxIdleConns : Int
  IdleConnTimeout : Int
deriving DecidableEq, Repr

/-- An `http.RoundTripper` value in the chain below the datasource transport:
either the base `*http.Transport`, or the sigv4 signing middleware
(`sigv4.New(config, next)`) wrapping a delegate. The signing configuration is
captured in the value at construction, never recomputed per request. -/
inductive RoundTripper where
  | transport (t : HttpTransport)
  | sigv4 (config : SigV4Config) (next : RoundTripper)
deriving DecidableEq, Repr

/-- A `*dataSourceTransport` instance. `tag` is the allocation identity of
the heap instance (fresh per build); two transports with different tags are
distinct instances. -/
structure DataSourceTransport where
  datasourceName : String
  headers : Smap
  transport : HttpTransport
  next : RoundTripper
  tag : Nat
deriving DecidableEq, Repr

/-- A `cachedTransport` entry of the proxy transport cache. -/
structure CachedTransport where
  updated : Int
  dst : DataSourceTransport
deriving DecidableEq, Repr

/-- A `cachedDecryptedJSON` entry of the decryption cache. -/
structure CachedDecryptedJSON where
  updated : Int
  json : Smap
deriving DecidableEq, Repr

/-- The process-global mutable state: the transport cache `ptc.cache`, the
decryption cache `dsDecryptionCache.cache`, the allocation counter for
transport identities, and the count of secret-store decrypt invocations
performed by the decryption-cache layer (`DecryptedValues`). -/
structure St where
  ptcCache : List (Int × CachedTransport)
  decCache : List (Int × CachedDecryptedJSON)
  nextTag : Nat
  decryptCount : Nat
deriving DecidableEq, Repr

/-- The valid-entry lookup of `DecryptedValues`: the cached map when an entry
for `ds.Id` exists and its stored timestamp equals `ds.Updated`. -/
def decCacheHit (ds : DataSource) (st : St) : Option Smap :=
  match List.lookup ds.Id st.decCache with
  | some item => if ds.Updated = item.updated then some item.json else none
  | none => none

/-- `(ds *DataSource) DecryptedValues()`: returns the cached decrypted map
when valid, otherwise invokes the secret store's decrypt (counted by
`decryptCount`) and repopulates the cache entry for `ds.Id`. -/
def DataSource.DecryptedValues (ds : DataSource) (st : St) : Smap × St :=
  match decCacheHit ds st with
  | some json => (json, st)
  | none =>
    let json := ds.secureDecrypt
    (json,
      { st with
        decCache := assocSet st.decCache ds.Id
          { updated := ds.Updated, json := json }
        decryptCount := st.decryptCount + 1 })

/-- `(ds *DataSource) DecryptedValue(key)`: a single key of the cached
decrypted map, with its `found` flag (`some`/`none`). -/
def DataSource.DecryptedValue (ds : DataSource) (key : String) (st : St) :
    Option String × St :=
  let (m, st') := ds.DecryptedValues st
  (List.lookup key m, st')

/-- `ClearDSDecryptionCache()`: atomically drops every entry of the
decryption cache. -/
def ClearDSDecryptionCache (st : St) : St :=
  { st with decCache := [] }

/-- `(ds *DataSource) sigV4Middleware(next)`: resolves the decrypted secrets
through the decryption cache, then constructs `sigv4.New(config, next)`. The
`awsServiceNamespace` call inside the config literal PANICS on an
unrecognised type tag; that panic is the `.error` branch, carrying the panic
message (note the decryption cache has already been touched at that point). -/
def DataSource.sigV4Middleware (ds : DataSource) (next : HttpTransport)
    (st : St) : Except String RoundTripper × St :=
  let dv := ds.DecryptedValues st
  match awsServiceNamespace ds.Type' with
  | .error msg => (.error msg, dv.2)
  | .ok service =>
    (.ok (.sigv4
      { Service := service
        AccessKey := smapGetD dv.1 "sigV4AccessKey"
        SecretKey := smapGetD dv.1 "sigV4SecretKey"
        Region := (ds.jsonDataGet "sigV4Region").mustString
        AssumeRoleARN := (ds.jsonDataGet "sigV4AssumeRoleArn").mustString
        AuthType := (ds.jsonDataGet "sigV4AuthType").mustString
        ExternalID := (ds.jsonDataGet "sigV4ExternalId").mustString
        Profile := (ds.jsonDataGet "sigV4Profile").mustString }
      (.transport next)), dv.2)

/-- The outcome of `GetHttpTransport`: a returned transport, a returned
error (`return nil, err`), or a runtime panic (which is NOT an error return —
it aborts the call). -/
inductive BuildOutcome where
  | ok (dst : DataSourceTransport)
  | err (e : String)
  | panic (msg : String)
deriving DecidableEq, Repr

/-- The transport-cache validity check of `GetHttpTransport`: the cached
instance when an entry for `ds.Id` exists and its stored timestamp equals
`ds.Updated` (`present && ds.Updated.Equal(t.updated)`). -/
def transportCacheHit (ds : DataSource) (st : St) : Option DataSourceTransport :=
  match List.lookup ds.Id st.ptcCache with
  | some t => if ds.Updated = t.updated then some t.dst else none
  | none => none

/-- The signing gate of `GetHttpTransport`:
`ds.JsonData != nil && ds.JsonData.Get("sigV4Auth").MustBool() && setting.SigV4AuthEnabled`. -/
def sigV4Enabled (cfg : Setting) (ds : DataSource) : Bool :=
  (match ds.JsonData with
   | some jd => (jsonGet jd "sigV4Auth").mustBool false
   | none => false)
  && cfg.SigV4AuthEnabled

/-- `(ds *DataSource) GetHttpTransport()`: returns the cached transport when
valid; otherwise builds the TLS configuration (propagating its error with the
cache untouched), forces client-initiated renegotiation, assembles the base
`*http.Transport`, optionally wraps it in the sigv4 middleware (whose
namespace lookup may panic), allocates the `*dataSourceTransport` (fresh
`tag`), stores it in the cache keyed by `ds.Id` with `ds.Updated`, and
returns it. -/
def DataSource.GetHttpTransport (ds : DataSource) (lib : X509Lib)
    (cfg : Setting) (st : St) : BuildOutcome × St :=
  match transportCacheHit ds st with
  | some dst => (.ok dst, st)
  | none =>
    match ds.GetTLSConfig lib with
    | .error e => (.err e, st)
    | .ok tlsConfig0 =>
      let tlsConfig :=
        { tlsConfig0 with Renegotiation := .RenegotiateFreelyAsClient }
      let customHeaders := ds.getCustomHeaders
      let transport : HttpTransport :=
        { TLSClientConfig := tlsConfig
          DialTimeout := ds.getTimeout cfg
          DialKeepAlive := cfg.DataProxyKeepAlive
          TLSHandshakeTimeout := cfg.DataProxyTLSHandshakeTimeout
          ExpectContinueTimeout := cfg.DataProxyExpectContinueTimeout
          MaxIdleConns := cfg.DataProxyMaxIdleConns
          IdleConnTimeout := cfg.DataProxyIdleConnTimeout }
      let sig :=
        if sigV4Enabled cfg ds then ds.sigV4Middleware transport st
        else (.ok (.transport transport), st)
      match sig with
      | (.error msg, st1) => (.panic msg, st1)
      | (.ok next, st1) =>
        let dst : DataSourceTransport :=
          { datasourceName := ds.Name
            headers := customHeaders
            transport := transport
            next := next
            tag := st1.nextTag }
        let st2 :=
          { st1 with
            ptcCache := assocSet st1.ptcCache ds.Id
              { updated := ds.Updated, dst := dst }
            nextTag := st1.nextTag + 1 }
        (.ok dst, st2)

/-- Whether a build outcome is an error RETURNED by `GetHttpTransport`
(`return nil, err`), as opposed to a success or a runtime panic. -/
def isErrorReturn : BuildOutcome → Bool
  | .err _ => true
  | _ => false

/-- A handler instance `old` is retired in state `st`: its allocation tag is
in the past of the allocator and no cache entry holds it, so no call can ever
return it again. -/
def Retired (old : DataSourceTransport) (st : St) : Prop :=
  old.tag < st.nextTag ∧ ∀ p ∈ st.ptcCache, p.2.dst ≠ old

/-! Concrete fixtures used by witnesses and counterexamples. -/

/-- An x509 library for which every PEM bundle parses to zero certificates
and every key pair is rejected. -/
def lib0 : X509Lib :=
  { parsePEMCerts := fun _ => []
    x509KeyPair := fun _ _ => .error "tls: failed to find any PEM data" }

/-- Settings with SigV4 signing enabled process-wide. -/
def cfg0 : Setting :=
  { DataProxyTimeout := 30, DataProxyKeepAlive := 30
    DataProxyTLSHandshakeTimeout := 10, DataProxyExpectContinueTimeout := 1
    DataProxyMaxIdleConns := 100, DataProxyIdleConnTimeout := 90
    SigV4AuthEnabled := true }

/-- Settings with SigV4 signing disabled process-wide. -/
def cfgNoSig : Setting :=
  { cfg0 with SigV4AuthEnabled := false }

/-- The empty initial state: both caches empty, no allocations. -/
def st0 : St :=
  { ptcCache := [], decCache := [], nextTag := 0, decryptCount := 0 }

/-- A signing-enabled resource with the unrecognised type tag of the spec's
end-to-end example. -/
def badDS : DataSource :=
  { Id := 7, Name := "bad", Type' := "unknown-plugin", Updated := 1
    JsonData := some [("sigV4Auth", .boolean true)], SecureJsonData := [] }

/-- A signing-enabled Elasticsearch resource. -/
def esDS : DataSource :=
  { Id := 7, Name := "es", Type' := "elasticsearch", Updated := 1
    JsonData := some [("sigV4Auth", .boolean true), ("sigV4Region", .str "us-east-1")]
    SecureJsonData := [("sigV4AccessKey", "AK"), ("sigV4SecretKey", "SK")] }

/-- A resource with custom header names at indices 1 and 3 but not 2. -/
def hdrDS : DataSource :=
  { Id := 1, Name := "hdr", Type' := "elasticsearch", Updated := 1
    JsonData := some [("httpHeaderName1", .str "X-A"), ("httpHeaderName3", .str "X-C")]
    SecureJsonData := [("httpHeaderValue1", "v1"), ("httpHeaderValue3", "v3")] }

/-- A resource requesting CA pinning whose decrypted CA bytes are non-empty
but not valid PEM (under `lib0`). -/
def tlsDS : DataSource :=
  { Id := 2, Name := "tls", Type' := "elasticsearch", Updated := 1
    JsonData := some [("tlsAuthWithCACert", .boolean true)]
    SecureJsonData := [("tlsCACert", "NOTPEM")] }

/-- A plain resource: no JsonData, no secrets. -/
def plainDS : DataSource :=
  { Id := 1, Name := "plain", Type' := "elasticsearch", Updated := 5
    JsonData := none, SecureJsonData := [] }

/-- A previously-built handler instance (allocation tag 0). -/
def dstW : DataSourceTransport :=
  { datasourceName := "plain", headers := [], tag := 0
    transport :=
      { TLSClientConfig :=
          { InsecureSkipVerify := false, ServerName := "", RootCAs := none
            Certificates := [], Renegotiation := .RenegotiateFreelyAsClient }
        DialTimeout := 30, DialKeepAlive := 30, TLSHandshakeTimeout := 10
        ExpectContinueTimeout := 1, MaxIdleConns := 100, IdleConnTimeout := 90 }
    next :=
      .transport
      { TLSClientConfig :=
          { InsecureSkipVerify := false, ServerName := "", RootCAs := none
            Certificates := [], Renegotiation := .RenegotiateFreelyAsClient }
        DialTimeout := 30, DialKeepAlive := 30, TLSHandshakeTimeout := 10
        ExpectContinueTimeout := 1, MaxIdleConns := 100, IdleConnTimeout := 90 } }

/-- A transport-cache entry holding `dstW`, stamped with timestamp 5. -/
def entryW : CachedTransport :=
  { updated := 5, dst := dstW }

/-- A state whose transport cache holds `entryW` for resource id 1
(one past allocation, so `nextTag = 1`). -/
def stHit : St :=
  { ptcCache := [(1, entryW)], decCache := [], nextTag := 1, decryptCount := 0 }

/-- `plainDS` with a bumped `updatedAt` (stale against `stHit`). -/
def staleDS : DataSource :=
  { plainDS with Updated := 6 }

/-- The TLS configuration `GetTLSConfig` yields for a resource with no TLS
settings. -/
def baseTLS : TLSConfig :=
  { InsecureSkipVerify := false, ServerName := "", RootCAs := none
    Certificates := [], Renegotiation := .RenegotiateNever }

/-- The handler rebuilt for `staleDS` against `stHit` (fresh tag 1). -/
def newDstC3 : DataSourceTransport :=
  { dstW with tag := 1 }

/-- The state after rebuilding `staleDS` against `stHit`. -/
def newStC3 : St :=
  { ptcCache := [(1, { updated := 6, dst := newDstC3 })], decCache := []
    nextTag := 2, decryptCount := 0 }

/-! ## Helper lemmas -/

theorem lookup_mem {κ α : Type} [BEq κ] [LawfulBEq κ] {k : κ} {v : α} :
    ∀ {l : List (κ × α)}, List.lookup k l = some v → (k, v) ∈ l := by
  intro l
  induction l with
  | nil => intro h; simp [List.lookup] at h
  | cons p t ih =>
    intro h
    obtain ⟨a, b⟩ := p
    simp only [List.lookup] at h
    split at h
    · next hk =>
      injection h with h
      subst h
      cases eq_of_beq hk
      exact List.mem_cons_self _ _
    · next hk =>
      exact List.mem_cons_of_mem _ (ih h)

theorem mem_assocSet {κ α : Type} [BEq κ] {m : List (κ × α)} {k : κ} {v : α}
    {p : κ × α} (h : p ∈ assocSet m k v) :
    p = (k, v) ∨ (p ∈ m ∧ (p.1 == k) = false) := by
  rcases List.mem_cons.mp h with h1 | h2
  · exact Or.inl h1
  · have hmf := List.mem_filter.mp h2
    refine Or.inr ⟨hmf.1, ?_⟩
    simpa [bne] using hmf.2

theorem lookup_assocSet_self {κ α : Type} [BEq κ] [LawfulBEq κ]
    (m : List (κ × α)) (k : κ) (v : α) :
    List.lookup k (assocSet m k v) = some v := by
  simp [assocSet, List.lookup]

/-- `DecryptedValues` touches only the decryption cache and the decrypt
counter: the transport cache and the allocation counter pass through. -/
theorem decryptedValues_preserves (ds : DataSource) (st : St) :
    ((ds.DecryptedValues st).2.ptcCache = st.ptcCache) ∧
    ((ds.DecryptedValues st).2.nextTag = st.nextTag) := by
  unfold DataSource.DecryptedValues
  cases decCacheHit ds st <;> simp

theorem transportCacheHit_some {ds : DataSource} {st : St}
    {d : DataSourceTransport} (h : transportCacheHit ds st = some d) :
    ∃ ct, List.lookup ds.Id st.ptcCache = some ct ∧ d = ct.dst ∧
      ds.Updated = ct.updated := by
  unfold transportCacheHit at h
  split at h
  · next ct heq =>
    split at h
    · next hts =>
      injection h with h
      exact ⟨ct, heq, h.symm, hts⟩
    · simp at h
  · simp at h

theorem transportCacheHit_stale {ds : DataSource} {st : St}
    {entry : CachedTransport}
    (hl : List.lookup ds.Id st.ptcCache = some entry)
    (hne : ds.Updated ≠ entry.updated) :
    transportCacheHit ds st = none := by
  unfold transportCacheHit
  rw [hl]
  exact if_neg hne

theorem transportCacheHit_valid {ds : DataSource} {st : St}
    {entry : CachedTransport}
    (hl : List.lookup ds.Id st.ptcCache = some entry)
    (hts : ds.Updated = entry.updated) :
    transportCacheHit ds st = some entry.dst := by
  unfold transportCacheHit
  rw [hl]
  exact if_pos hts

/-- Ground header-key computations. -/
theorem hdrKey1 : "httpHeaderName" ++ toString (1 : Nat) = "httpHeaderName1" := rfl

theorem hdrKey2 : "httpHeaderName" ++ toString (2 : Nat) = "httpHeaderName2" := rfl

theorem valKey1 : "httpHeaderValue" ++ toString (1 : Nat) = "httpHeaderValue1" := rfl

/-! ## Claim C10 -/

/-- Claim C10 (confirmed): in the custom-header scan, an index whose
header-name entry is present and non-empty but whose value key is absent
from the decrypted secret map contributes nothing to the accumulated headers,
and the scan continues with the next index — the gap-termination rule applies
only to missing names, never to missing values. -/
theorem c10_missing_value_skips_pair_continues (jd : JsonObj) (decrypted : Smap)
    (fuel index : Nat) (headers : Smap)
    (hname : (jsonGet jd ("httpHeaderName" ++ toString index)).mustString ≠ "")
    (hval : List.lookup ("httpHeaderValue" ++ toString index) decrypted = none) :
    getCustomHeadersLoop jd decrypted (fuel + 1) index headers
      = getCustomHeadersLoop jd decrypted fuel (index + 1) headers := by
  simp only [getCustomHeadersLoop]
  rw [if_neg hname, hval]

/-- Witness for C10: a name at index 1 with no decrypted value is skipped and
the scan moves to index 2. -/
theorem c10_missing_value_skips_pair_continues_witness :
    ((jsonGet [("httpHeaderName1", JsonVal.str "X-A")]
        ("httpHeaderName" ++ toString (1 : Nat))).mustString ≠ "") ∧
    getCustomHeadersLoop [("httpHeaderName1", JsonVal.str "X-A")] [] 3 1 []
      = getCustomHeadersLoop [("httpHeaderName1", JsonVal.str "X-A")] [] 2 2 [] :=
  ⟨by decide,
   c10_missing_value_skips_pair_continues _ _ 2 1 [] (by decide) rfl⟩

/-! ## Claim C4 -/

/-- Claim C4 (confirmed): the custom-header scan starts at index 1 and stops
at the first index whose header-name entry is absent or empty. For a
configuration with names at indices 1 and 3 but not 2, the result holds the
index-1 header alone (paired with its decrypted value when present); the
index-3 name never appears. -/
theorem c4_header_scan_stops_at_gap (ds : DataSource) (jd : JsonObj)
    (k1 k3 : String)
    (hjd : ds.JsonData = some jd)
    (h1 : (jsonGet jd "httpHeaderName1").mustString = k1) (h1ne : k1 ≠ "")
    (h2 : (jsonGet jd "httpHeaderName2").mustString = "")
    (h3 : (jsonGet jd "httpHeaderName3").mustString = k3) (_h3ne : k3 ≠ "") :
    ds.getCustomHeaders =
      ((List.lookup "httpHeaderValue1" ds.secureDecrypt).map
        (fun v => (k1, v))).toList ∧
    (k3 ≠ k1 → List.lookup k3 ds.getCustomHeaders = none) := by
  have hne : jd ≠ [] := by
    intro h0
    subst h0
    simp [jsonGet, List.lookup, JsonVal.mustString] at h1
    exact h1ne h1.symm
  obtain ⟨m, hm⟩ : ∃ m, jd.length = m + 1 := by
    cases hlen : jd.length with
    | zero => exact absurd (List.length_eq_zero.mp hlen) hne
    | succ m => exact ⟨m, rfl⟩
  have hres : ds.getCustomHeaders =
      ((List.lookup "httpHeaderValue1" ds.secureDecrypt).map
        (fun v => (k1, v))).toList := by
    unfold DataSource.getCustomHeaders
    rw [hjd]
    show getCustomHeadersLoop jd ds.secureDecrypt (jd.length + 1) 1 [] = _
    rw [hm]
    rw [getCustomHeadersLoop, hdrKey1, h1, if_neg h1ne]
    cases hv : List.lookup ("httpHeaderValue" ++ toString (1 : Nat))
        ds.secureDecrypt with
    | none =>
      rw [getCustomHeadersLoop, hdrKey2, h2, if_pos rfl]
      rw [valKey1] at hv
      simp [hv]
    | some v =>
      rw [getCustomHeadersLoop, hdrKey2, h2, if_pos rfl]
      rw [valKey1] at hv
      simp [hv, assocSet]
  refine ⟨hres, fun hk31 => ?_⟩
  rw [hres]
  cases List.lookup "httpHeaderValue1" ds.secureDecrypt with
  | none => rfl
  | some v =>
    simp [List.lookup, beq_false_of_ne hk31]

/-- Witness for C4: `hdrDS` has names at indices 1 and 3 but not 2; the scan
yields only the index-1 header and never applies the index-3 one. -/
theorem c4_header_scan_stops_at_gap_witness :
    hdrDS.getCustomHeaders =
      ((List.lookup "httpHeaderValue1" hdrDS.secureDecrypt).map
        (fun v => ("X-A", v))).toList ∧
    ("X-C" ≠ "X-A" → List.lookup "X-C" hdrDS.getCustomHeaders = none) :=
  c4_header_scan_stops_at_gap hdrDS _ "X-A" "X-C" rfl (by decide) (by decide)
    (by decide) (by decide) (by decide)

/-! ## Claim C7 -/

/-- Every successful `GetTLSConfig` result has either no pinned trust store
or a non-empty one: an empty CA pool is never produced. -/
theorem getTLSConfig_rootCAs (lib : X509Lib) (ds : DataSource)
    (cfg : TLSConfig) (h : ds.GetTLSConfig lib = .ok cfg) :
    cfg.RootCAs = none ∨ ∃ certs, cfg.RootCAs = some certs ∧ certs ≠ [] := by
  simp only [DataSource.GetTLSConfig] at h
  split at h
  · split at h
    · simp at h
    · next cfg1 heq =>
      have hroot : cfg1.RootCAs = none ∨
          ∃ certs, cfg1.RootCAs = some certs ∧ certs ≠ [] := by
        split at heq
        · split at heq
          · simp at heq
          · next hempty =>
            injection heq with heq
            subst heq
            refine Or.inr ⟨_, rfl, ?_⟩
            intro hnil
            rw [hnil] at hempty
            simp at hempty
        · injection heq with heq
          subst heq
          exact Or.inl rfl
      split at h
      · split at h
        · simp at h
        · injection h with h
          subst h
          exact hroot
      · injection h with h
        subst h
        exact hroot
  · injection h with h
    subst h
    exact Or.inl rfl

/-- Claim C7 (confirmed): for a resource requesting CA pinning whose
decrypted CA bytes are non-empty but parse to zero PEM certificates,
`GetTLSConfig` fails with the CA-parse error; and no successful result ever
carries an empty trust store. -/
theorem c7_ca_parse_failure (lib : X509Lib) (ds : DataSource) (ca : String)
    (hca : (ds.jsonDataGet "tlsAuthWithCACert").mustBool false = true)
    (hbytes : smapGetD ds.secureDecrypt "tlsCACert" = ca)
    (hlen : 0 < ca.length)
    (hparse : lib.parsePEMCerts ca = []) :
    ds.GetTLSConfig lib = .error "failed to parse TLS CA PEM certificate" ∧
    ∀ (lib' : X509Lib) (ds' : DataSource) (cfg : TLSConfig),
      ds'.GetTLSConfig lib' = .ok cfg → cfg.RootCAs ≠ some [] := by
  constructor
  · simp [DataSource.GetTLSConfig, hca, hbytes, hparse, hlen]
  · intro lib' ds' cfg h
    rcases getTLSConfig_rootCAs lib' ds' cfg h with hr | ⟨certs, hr, hne⟩
    · rw [hr]
      simp
    · rw [hr]
      simp [hne]

/-- Witness for C7: `tlsDS` pins a CA whose bytes are not PEM under `lib0`. -/
theorem c7_ca_parse_failure_witness :
    tlsDS.GetTLSConfig lib0 =
      .error "failed to parse TLS CA PEM certificate" ∧
    ∀ (lib' : X509Lib) (ds' : DataSource) (cfg : TLSConfig),
      ds'.GetTLSConfig lib' = .ok cfg → cfg.RootCAs ≠ some [] :=
  c7_ca_parse_failure lib0 tlsDS "NOTPEM" (by decide) rfl (by decide) rfl

/-! ## Claim C8 -/

/-- Claim C8 (confirmed): `ClearDSDecryptionCache` drops every entry of the
decryption cache atomically; the next `DecryptedValues` (or `DecryptedValue`)
call after a clear re-invokes the secret store's decrypt operation (the
decrypt counter advances), returns the freshly decrypted map rather than any
previously cached value, and repopulates the cache entry for the resource. -/
theorem c8_clear_then_redecrypt (ds : DataSource) (key : String) (st : St) :
    (ClearDSDecryptionCache st).decCache = [] ∧
    (ds.DecryptedValues (ClearDSDecryptionCache st)).1 = ds.secureDecrypt ∧
    (ds.DecryptedValues (ClearDSDecryptionCache st)).2.decryptCount
        = st.decryptCount + 1 ∧
    List.lookup ds.Id
        (ds.DecryptedValues (ClearDSDecryptionCache st)).2.decCache
      = some { updated := ds.Updated, json := ds.secureDecrypt } ∧
    (ds.DecryptedValue key (ClearDSDecryptionCache st)).1
        = List.lookup key ds.secureDecrypt := by
  unfold ClearDSDecryptionCache DataSource.DecryptedValue
    DataSource.DecryptedValues decCacheHit
  simp [assocSet, List.lookup]

/-! ## Transport-cache build lemmas -/

/-- On a valid cache hit, `GetHttpTransport` returns the cached instance and
leaves the state untouched. -/
theorem getHttpTransport_hit (lib : X509Lib) (cfg : Setting) {ds : DataSource}
    {st : St} {d : DataSourceTransport}
    (h : transportCacheHit ds st = some d) :
    ds.GetHttpTransport lib cfg st = (.ok d, st) := by
  unfold DataSource.GetHttpTransport
  rw [h]

/-- On a cache miss, `GetHttpTransport` either returns the TLS builder's
error with the state untouched, panics with the transport cache and the
allocator untouched, or succeeds with a freshly allocated transport (tag =
current allocator value) stored wholesale in the cache under `ds.Id` with
`ds.Updated`, whose TLS configuration is the TLS builder's result with
renegotiation forced to client-initiated. -/
theorem getHttpTransport_miss_cases (lib : X509Lib) (cfg : Setting)
    (ds : DataSource) (st : St) (hmiss : transportCacheHit ds st = none) :
    (∃ e, ds.GetHttpTransport lib cfg st = (.err e, st) ∧
      ds.GetTLSConfig lib = .error e) ∨
    (∃ m st', ds.GetHttpTransport lib cfg st = (.panic m, st') ∧
      st'.ptcCache = st.ptcCache ∧ st'.nextTag = st.nextTag) ∨
    (∃ dst st' tls0, ds.GetHttpTransport lib cfg st = (.ok dst, st') ∧
      dst.tag = st.nextTag ∧ st'.nextTag = st.nextTag + 1 ∧
      st'.ptcCache
        = assocSet st.ptcCache ds.Id { updated := ds.Updated, dst := dst } ∧
      ds.GetTLSConfig lib = .ok tls0 ∧
      dst.transport.TLSClientConfig
        = { tls0 with Renegotiation := .RenegotiateFreelyAsClient }) := by
  obtain ⟨hp, hn⟩ := decryptedValues_preserves ds st
  unfold DataSource.GetHttpTransport
  rw [hmiss]
  cases htls : ds.GetTLSConfig lib with
  | error e =>
    exact Or.inl ⟨e, rfl, rfl⟩
  | ok tls0 =>
    cases hsig : sigV4Enabled cfg ds with
    | false =>
      right; right
      simp only [hsig, Bool.false_eq_true, if_false]
      exact ⟨_, _, tls0, rfl, rfl, rfl, rfl, rfl, rfl⟩
    | true =>
      simp only [hsig, if_true, DataSource.sigV4Middleware]
      cases hns : awsServiceNamespace ds.Type' with
      | error msg =>
        right; left
        exact ⟨msg, _, rfl, hp, hn⟩
      | ok svc =>
        right; right
        refine ⟨_, _, tls0, rfl, ?_, ?_, ?_, rfl, rfl⟩
        · exact hn
        · show (ds.DecryptedValues st).2.nextTag + 1 = st.nextTag + 1
          rw [hn]
        · show assocSet (ds.DecryptedValues st).2.ptcCache ds.Id _
            = assocSet st.ptcCache ds.Id _
          rw [hp]

/-! ## Claim C2 -/

/-- Claim C2 (confirmed): when a cached entry for the resource id exists and
its stored timestamp equals the resource's `updatedAt`, `GetHttpTransport`
returns the identical cached handler instance with the state completely
untouched (no TLS rebuild, no allocation, no cache write), and a repeated
call returns the same instance again. -/
theorem c2_cache_hit_identity_stable (lib : X509Lib) (cfg : Setting)
    (ds : DataSource) (st : St) (entry : CachedTransport)
    (hentry : List.lookup ds.Id st.ptcCache = some entry)
    (hts : ds.Updated = entry.updated) :
    ds.GetHttpTransport lib cfg st = (.ok entry.dst, st) ∧
    ds.GetHttpTransport lib cfg (ds.GetHttpTransport lib cfg st).2
      = (.ok entry.dst, st) := by
  have hhit := transportCacheHit_valid hentry hts
  have h1 := getHttpTransport_hit lib cfg hhit
  refine ⟨h1, ?_⟩
  rw [h1]
  exact h1

/-- Witness for C2: `plainDS` against `stHit` (matching timestamp 5) returns
the cached `dstW` twice, with the state unchanged. -/
theorem c2_cache_hit_identity_stable_witness :
    plainDS.GetHttpTransport lib0 cfg0 stHit = (.ok entryW.dst, stHit) ∧
    plainDS.GetHttpTransport lib0 cfg0
        (plainDS.GetHttpTransport lib0 cfg0 stHit).2
      = (.ok entryW.dst, stHit) :=
  c2_cache_hit_identity_stable lib0 cfg0 plainDS stHit entryW rfl rfl

/-! ## Claim C6 -/

/-- Claim C6 (confirmed): when the build fails, nothing is cached. A
returned error (e.g. from the TLS configuration builder) leaves the whole
state untouched, and a build-time panic leaves the transport cache
untouched — so the next access re-attempts the full construction. -/
theorem c6_failed_build_not_cached (lib : X509Lib) (cfg : Setting)
    (ds : DataSource) (st : St) :
    (∀ e, (ds.GetHttpTransport lib cfg st).1 = .err e →
      (ds.GetHttpTransport lib cfg st).2 = st) ∧
    (∀ m, (ds.GetHttpTransport lib cfg st).1 = .panic m →
      ((ds.GetHttpTransport lib cfg st).2).ptcCache = st.ptcCache) := by
  cases hhit : transportCacheHit ds st with
  | some d =>
    have h := getHttpTransport_hit lib cfg hhit
    rw [h]
    constructor
    · intro e he
      exact absurd he (by simp)
    · intro m hm
      exact absurd hm (by simp)
  | none =>
    rcases getHttpTransport_miss_cases lib cfg ds st hhit with
      ⟨e, heq, _⟩ | ⟨m, st', heq, hptc, _⟩ | ⟨dst, st', tls0, heq, _, _, _, _, _⟩
    · rw [heq]
      constructor
      · intro e' _
        rfl
      · intro m hm
        exact absurd hm (by simp)
    · rw [heq]
      constructor
      · intro e he
        exact absurd he (by simp)
      · intro m' _
        exact hptc
    · rw [heq]
      constructor
      · intro e he
        exact absurd he (by simp)
      · intro m hm
        exact absurd hm (by simp)

/-- Witness for C6: `tlsDS` fails its TLS build under `lib0`; the state after
the failed call equals the initial state. -/
theorem c6_failed_build_not_cached_witness :
    (tlsDS.GetHttpTransport lib0 cfg0 st0).2 = st0 :=
  (c6_failed_build_not_cached lib0 cfg0 tlsDS st0).1
    "failed to parse TLS CA PEM certificate" rfl

/-! ## Claim C9 -/

/-- Claim C9 (confirmed): every freshly built handler carries the TLS
configuration produced by `GetTLSConfig` with renegotiation forced to
`RenegotiateFreelyAsClient` — client-initiated renegotiation is always
permitted by the configuration carried by the built transport. -/
theorem c9_renegotiation_freely_as_client (lib : X509Lib) (cfg : Setting)
    (ds : DataSource) (st : St) (dst : DataSourceTransport) (st' : St)
    (hmiss : transportCacheHit ds st = none)
    (hok : ds.GetHttpTransport lib cfg st = (.ok dst, st')) :
    ∃ tls0, ds.GetTLSConfig lib = .ok tls0 ∧
      dst.transport.TLSClientConfig
        = { tls0 with Renegotiation := .RenegotiateFreelyAsClient } ∧
      dst.transport.TLSClientConfig.Renegotiation
        = .RenegotiateFreelyAsClient := by
  rcases getHttpTransport_miss_cases lib cfg ds st hmiss with
    ⟨e, heq, _⟩ | ⟨m, st2, heq, _, _⟩ |
    ⟨dst2, st2, tls0, heq, _, _, _, htls, htlscfg⟩
  · rw [hok] at heq
    simp at heq
  · rw [hok] at heq
    simp at heq
  · have h2 := hok.symm.trans heq
    injection h2 with h3 h4
    injection h3 with h5
    subst h5
    exact ⟨tls0, htls, htlscfg, by rw [htlscfg]⟩

/-- Witness for C9: the cold build of `plainDS` yields `dstW`, whose TLS
configuration is the base TLS result with client-initiated renegotiation. -/
theorem c9_renegotiation_freely_as_client_witness :
    ∃ tls0, plainDS.GetTLSConfig lib0 = .ok tls0 ∧
      dstW.transport.TLSClientConfig
        = { tls0 with Renegotiation := .RenegotiateFreelyAsClient } ∧
      dstW.transport.TLSClientConfig.Renegotiation
        = .RenegotiateFreelyAsClient :=
  c9_renegotiation_freely_as_client lib0 cfgNoSig plainDS st0 dstW stHit
    rfl rfl

/-! ## Claim C1 -/

/-- Counterexample for C1: the claim says the build call RETURNS a
ConfigurationError for a signing-enabled resource of unrecognised type. On
the spec's own end-to-end input (`badDS`, type `"unknown-plugin"`, signing
enabled) the code does not return any error value at all: `awsServiceNamespace`
panics inside the build, so the outcome is a runtime abort, not an error
return. -/
theorem c1_counterexample_panic_not_error_return :
    isErrorReturn (badDS.GetHttpTransport lib0 cfg0 st0).1 = false ∧
    (badDS.GetHttpTransport lib0 cfg0 st0).1
      = .panic "Unsupported datasource unknown-plugin" :=
  ⟨rfl, rfl⟩

/-- Claim C1 (corrected): for every signing-enabled resource whose type tag
is unrecognised (and whose TLS configuration builds), the transport build
operation fails at build time — but by an unrecoverable runtime panic carrying
the "Unsupported datasource" message, not by returning a ConfigurationError;
nothing is stored in the transport cache and the failure is never deferred to
request time. -/
theorem c1_unrecognized_type_panics_at_build_time (lib : X509Lib)
    (cfg : Setting) (ds : DataSource) (st : St) (msg : String)
    (tls0 : TLSConfig)
    (hmiss : transportCacheHit ds st = none)
    (htls : ds.GetTLSConfig lib = .ok tls0)
    (hsig : sigV4Enabled cfg ds = true)
    (hns : awsServiceNamespace ds.Type' = .error msg) :
    (ds.GetHttpTransport lib cfg st).1 = .panic msg ∧
    ((ds.GetHttpTransport lib cfg st).2).ptcCache = st.ptcCache := by
  obtain ⟨hp, _⟩ := decryptedValues_preserves ds st
  unfold DataSource.GetHttpTransport
  rw [hmiss, htls]
  simp only [hsig, if_true, DataSource.sigV4Middleware]
  rw [hns]
  exact ⟨rfl, hp⟩

/-- Witness for the corrected C1 at the spec's end-to-end input. -/
theorem c1_unrecognized_type_panics_at_build_time_witness :
    (badDS.GetHttpTransport lib0 cfg0 st0).1
      = .panic "Unsupported datasource unknown-plugin" ∧
    ((badDS.GetHttpTransport lib0 cfg0 st0).2).ptcCache = st0.ptcCache :=
  c1_unrecognized_type_panics_at_build_time lib0 cfg0 badDS st0
    "Unsupported datasource unknown-plugin" baseTLS rfl rfl rfl rfl

/-! ## Claim C5 -/

/-- Claim C5 (confirmed): on a fresh successful build, if request signing is
enabled in the resource's configuration (and process-wide) and the type is
recognised, the handler's delegate is the Request Signer wrapping the base
transport, with the signing configuration — including the credentials taken
from the decrypted secret map — resolved at build time and captured in the
value; if signing is not enabled, the handler's delegate is the base
transport itself. -/
theorem c5_signing_chain_structure (lib : X509Lib) (cfg : Setting)
    (ds : DataSource) (st : St) (tls0 : TLSConfig)
    (hmiss : transportCacheHit ds st = none)
    (htls : ds.GetTLSConfig lib = .ok tls0) :
    (∀ svc, sigV4Enabled cfg ds = true →
      awsServiceNamespace ds.Type' = .ok svc →
      ∃ dst st', ds.GetHttpTransport lib cfg st = (.ok dst, st') ∧
        dst.next = .sigv4
          { Service := svc
            AccessKey := smapGetD (ds.DecryptedValues st).1 "sigV4AccessKey"
            SecretKey := smapGetD (ds.DecryptedValues st).1 "sigV4SecretKey"
            Region := (ds.jsonDataGet "sigV4Region").mustString
            AssumeRoleARN := (ds.jsonDataGet "sigV4AssumeRoleArn").mustString
            AuthType := (ds.jsonDataGet "sigV4AuthType").mustString
            ExternalID := (ds.jsonDataGet "sigV4ExternalId").mustString
            Profile := (ds.jsonDataGet "sigV4Profile").mustString }
          (.transport dst.transport)) ∧
    (sigV4Enabled cfg ds = false →
      ∃ dst st', ds.GetHttpTransport lib cfg st = (.ok dst, st') ∧
        dst.next = .transport dst.transport) := by
  constructor
  · intro svc hsig hns
    unfold DataSource.GetHttpTransport
    rw [hmiss, htls]
    simp only [hsig, if_true, DataSource.sigV4Middleware]
    rw [hns]
    exact ⟨_, _, rfl, rfl⟩
  · intro hsig
    unfold DataSource.GetHttpTransport
    rw [hmiss, htls]
    simp only [hsig, Bool.false_eq_true, if_false]
    exact ⟨_, _, rfl, rfl⟩

/-- Witness for C5: the signing-enabled Elasticsearch resource `esDS` builds
a handler whose delegate is the signer (service namespace `"es"`, credentials
from the decrypted map) wrapping the base transport. -/
theorem c5_signing_chain_structure_witness :
    ∃ dst st', esDS.GetHttpTransport lib0 cfg0 st0 = (.ok dst, st') ∧
      dst.next = .sigv4
        { Service := "es"
          AccessKey := smapGetD (esDS.DecryptedValues st0).1 "sigV4AccessKey"
          SecretKey := smapGetD (esDS.DecryptedValues st0).1 "sigV4SecretKey"
          Region := (esDS.jsonDataGet "sigV4Region").mustString
          AssumeRoleARN := (esDS.jsonDataGet "sigV4AssumeRoleArn").mustString
          AuthType := (esDS.jsonDataGet "sigV4AuthType").mustString
          ExternalID := (esDS.jsonDataGet "sigV4ExternalId").mustString
          Profile := (esDS.jsonDataGet "sigV4Profile").mustString }
        (.transport dst.transport) :=
  (c5_signing_chain_structure lib0 cfg0 esDS st0 baseTLS rfl rfl).1
    "es" rfl rfl

/-! ## Claim C3 -/

/-- Once a handler is retired — its tag below the allocator and no cache
entry holding it — any `GetHttpTransport` call preserves that, and can never
return the retired instance: hits return a (different) cached instance,
fresh builds carry a strictly newer tag. -/
theorem retired_step (old : DataSourceTransport) (lib : X509Lib)
    (cfg : Setting) (ds : DataSource) (st : St) (hr : Retired old st) :
    Retired old (ds.GetHttpTransport lib cfg st).2 ∧
    ∀ d, (ds.GetHttpTransport lib cfg st).1 = .ok d → d ≠ old := by
  cases hhit : transportCacheHit ds st with
  | some d0 =>
    have h := getHttpTransport_hit lib cfg hhit
    rw [h]
    refine ⟨hr, ?_⟩
    intro d hd
    have hd' : BuildOutcome.ok d0 = .ok d := hd
    injection hd' with hd'
    subst hd'
    obtain ⟨ct, hl, hds, _⟩ := transportCacheHit_some hhit
    subst hds
    exact hr.2 _ (lookup_mem hl)
  | none =>
    rcases getHttpTransport_miss_cases lib cfg ds st hhit with
      ⟨e, heq, _⟩ | ⟨m, st', heq, hptc, hnt⟩ |
      ⟨dst, st', tls0, heq, htag, hnt, hptc, _, _⟩
    · rw [heq]
      exact ⟨hr, fun d hd => absurd hd (by simp)⟩
    · rw [heq]
      refine ⟨⟨?_, ?_⟩, fun d hd => absurd hd (by simp)⟩
      · rw [hnt]
        exact hr.1
      · intro p hp
        rw [hptc] at hp
        exact hr.2 p hp
    · rw [heq]
      have hdstne : dst ≠ old := by
        intro hc
        have h1 := hr.1
        rw [← hc, htag] at h1
        exact absurd h1 (lt_irrefl _)
      refine ⟨⟨?_, ?_⟩, ?_⟩
      · rw [hnt]
        exact Nat.lt_succ_of_lt hr.1
      · intro p hp
        rw [hptc] at hp
        rcases mem_assocSet hp with h1 | ⟨h2, _⟩
        · rw [h1]
          exact hdstne
        · exact hr.2 p h2
      · intro d hd
        have hd' : BuildOutcome.ok dst = .ok d := hd
        injection hd' with hd'
        subst hd'
        exact hdstne

/-- Claim C3 (confirmed): when a cached entry exists for the resource id but
its stored timestamp differs from the resource's `updatedAt`, a successful
`GetHttpTransport` call performs a full reconstruction — a freshly allocated
handler (tag = the allocator's current value, hence a different instance) —
and replaces the cache entry wholesale with the new handler and the new
timestamp; the previous handler is retired and is never returned by any later
call. (The tag hypotheses state that the cache holds genuinely allocated
instances, with the replaced one cached only under this resource id.) -/
theorem c3_updated_mismatch_full_rebuild (lib : X509Lib) (cfg : Setting)
    (ds : DataSource) (st : St) (entry : CachedTransport)
    (dst : DataSourceTransport) (st' : St)
    (hentry : List.lookup ds.Id st.ptcCache = some entry)
    (hne : ds.Updated ≠ entry.updated)
    (htags : ∀ p ∈ st.ptcCache, p.2.dst.tag < st.nextTag)
    (huniq : ∀ p ∈ st.ptcCache, p.2.dst = entry.dst → p.1 = ds.Id)
    (hok : ds.GetHttpTransport lib cfg st = (.ok dst, st')) :
    dst.tag = st.nextTag ∧
    dst ≠ entry.dst ∧
    List.lookup ds.Id st'.ptcCache
      = some { updated := ds.Updated, dst := dst } ∧
    Retired entry.dst st' ∧
    (∀ (lib2 : X509Lib) (cfg2 : Setting) (ds2 : DataSource) (st2 : St),
      Retired entry.dst st2 →
      Retired entry.dst (ds2.GetHttpTransport lib2 cfg2 st2).2 ∧
      ∀ d, (ds2.GetHttpTransport lib2 cfg2 st2).1 = .ok d →
        d ≠ entry.dst) := by
  have hmiss := transportCacheHit_stale hentry hne
  have hentrytag : entry.dst.tag < st.nextTag := htags _ (lookup_mem hentry)
  rcases getHttpTransport_miss_cases lib cfg ds st hmiss with
    ⟨e, heq, _⟩ | ⟨m, st2, heq, _, _⟩ |
    ⟨dst2, st2, tls0, heq, htag, hnt, hptc, _, _⟩
  · rw [hok] at heq
    simp at heq
  · rw [hok] at heq
    simp at heq
  · have h2 := hok.symm.trans heq
    injection h2 with h3 h4
    injection h3 with h5
    subst h5
    subst h4
    have hdstne : dst ≠ entry.dst := by
      intro hc
      have h1 : entry.dst.tag < st.nextTag := hentrytag
      rw [← hc, htag] at h1
      exact absurd h1 (lt_irrefl _)
    refine ⟨htag, hdstne, ?_, ⟨?_, ?_⟩, ?_⟩
    · rw [hptc]
      exact lookup_assocSet_self st.ptcCache ds.Id _
    · rw [hnt]
      exact Nat.lt_succ_of_lt hentrytag
    · intro p hp
      rw [hptc] at hp
      rcases mem_assocSet hp with h1 | ⟨hmem, hkey⟩
      · rw [h1]
        exact hdstne
      · intro hc
        have hid := huniq p hmem hc
        rw [hid] at hkey
        simp at hkey
    · intro lib2 cfg2 ds2 st2 hr
      exact retired_step entry.dst lib2 cfg2 ds2 st2 hr

/-- Witness for C3: `staleDS` (timestamp 6) against `stHit` (entry stamped 5)
rebuilds: fresh tag 1, wholesale replacement in the cache, old handler
retired. -/
theorem c3_updated_mismatch_full_rebuild_witness :
    newDstC3.tag = stHit.nextTag ∧
    newDstC3 ≠ entryW.dst ∧
    List.lookup staleDS.Id newStC3.ptcCache
      = some { updated := staleDS.Updated, dst := newDstC3 } ∧
    Retired entryW.dst newStC3 ∧
    (∀ (lib2 : X509Lib) (cfg2 : Setting) (ds2 : DataSource) (st2 : St),
      Retired entryW.dst st2 →
      Retired entryW.dst (ds2.GetHttpTransport lib2 cfg2 st2).2 ∧
      ∀ d, (ds2.GetHttpTransport lib2 cfg2 st2).1 = .ok d →
        d ≠ entryW.dst) :=
  c3_updated_mismatch_full_rebuild lib0 cfgNoSig staleDS stHit entryW
    newDstC3 newStC3 rfl (by decide) (by decide) (by decide) rfl

end GrafanaDS
